import Mathlib

/-!
Verification of the museum-search / chat-streaming core of the
art-rogue-streamlit repository (src/utils.py and src/chat.py).

The Python code is shallowly embedded: JSON values become the inductive
type `Json`, Python dictionary access and truthiness are modelled
explicitly, Python exceptions become `Except String`, the random draw
performed by random.sample is parametrised by an oracle list of indices,
and the network is parametrised by response payloads and fetch oracles.
-/

namespace ArtRogue

/-- A JSON-like Python value: None, bool, int, str, list, dict.
Dictionary keys are assumed distinct, as produced by JSON parsing. -/
inductive Json where
  | null : Json
  | bool (b : Bool) : Json
  | num (n : Int) : Json
  | str (s : String) : Json
  | arr (xs : List Json) : Json
  | obj (fields : List (String × Json)) : Json

/-- Python dictionary lookup: first binding of the key, if any. -/
def dictGet (fields : List (String × Json)) (k : String) : Option Json :=
  (fields.find? (fun p => p.1 == k)).map Prod.snd

/-- Python truthiness of a JSON value. -/
def truthy : Json → Bool
  | .null => false
  | .bool b => b
  | .num n => n != 0
  | .str s => !s.isEmpty
  | .arr xs => !xs.isEmpty
  | .obj fs => !fs.isEmpty

/-- Python `a or b`: `a` when truthy, else `b`. -/
def pyOr (a b : Json) : Json :=
  if truthy a then a else b

/-- Python `x.get(k, default)`. Raises AttributeError when the receiver
is not a dict (for example None, a list or a string). -/
def pyGetD (j : Json) (k : String) (default : Json) : Except String Json :=
  match j with
  | .obj fields => .ok ((dictGet fields k).getD default)
  | _ => .error "AttributeError"

/-- Python `x.get(k)` with the implicit default None. -/
def pyGetN (j : Json) (k : String) : Except String Json :=
  pyGetD j k .null

/-! ## Museum gateway (src/utils.py) -/

def CMA_LABEL : String := "Cleveland (CMA)"

def MET_LABEL : String := "Metropolitan (MMA)"

/-- Embedding of `random.sample(pop, k)`.  The actual RNG draw is given
by the oracle `idxs`: the list of positions the sampler picks, in pick
order.  Exactly like random.sample, the call raises ValueError iff the
requested size exceeds the population size (`k` is a Nat because the code
only ever passes `min 5 (len data)`, which is nonnegative). -/
def random_sample (pop : List Json) (k : Nat) (idxs : List Nat) : Except String (List Json) :=
  if k ≤ pop.length then .ok (idxs.filterMap (fun i => pop[i]?)) else .error "ValueError"

/-- A legitimate draw for random.sample: `k` distinct in-range positions. -/
def ValidDraw (idxs : List Nat) (k n : Nat) : Prop :=
  idxs.Nodup ∧ idxs.length = k ∧ ∀ i ∈ idxs, i < n

/-- Embedding of `fx_search_cma` (utils.py lines 29-56) after the HTTP
round trip: `payload` is the decoded JSON body of the search response and
`idxs` the RNG oracle for random.sample.  Mirrors
`data = payload.get("data", []) or []`, the empty-data early return,
`k = min(5, len(data))`, and the try/except ValueError fallback
`sampled = data[:k]`.  A truthy non-list `data` value would hit
`len(data)`; the non-sequence TypeError is modelled, sequence types other
than lists do not occur in decoded JSON bodies. -/
def fx_search_cma (payload : Json) (idxs : List Nat) : Except String (List Json) :=
  match pyGetD payload "data" (.arr []) with
  | .error e => .error e
  | .ok data0 =>
    let data := pyOr data0 (.arr [])
    if !truthy data then .ok []
    else match data with
      | .arr l =>
        let k := min 5 l.length
        match random_sample l k idxs with
        | .ok sampled => .ok sampled
        | .error _ => .ok (l.take k)
      | _ => .error "TypeError"

/-- `fx_search_cma` with the `except ValueError` fallback branch removed:
a ValueError from random.sample would propagate.  Used to state that the
fallback branch is unreachable. -/
def fx_search_cma_noexcept (payload : Json) (idxs : List Nat) : Except String (List Json) :=
  match pyGetD payload "data" (.arr []) with
  | .error e => .error e
  | .ok data0 =>
    let data := pyOr data0 (.arr [])
    if !truthy data then .ok []
    else match data with
      | .arr l =>
        let k := min 5 l.length
        random_sample l k idxs
      | _ => .error "TypeError"

/-- Embedding of `fx_search_met` (utils.py lines 59-86) after the first
HTTP round trip: `payload` is the decoded body of the identifier search,
`idxs` the RNG oracle, and `fetch` the oracle for one detail request
(`requests.get` + `raise_for_status` + `.json()` for a given object id);
`fetch` returning `.error` models any exception in the loop body, which
the code swallows with `continue`.  Mirrors
`object_ids = result_set.get("objectIDs") or []`, the empty early return,
`k = min(5, len(object_ids))`, the unguarded random.sample, and the
per-identifier try/except that keeps only successful fetches in order. -/
def fx_search_met (payload : Json) (idxs : List Nat) (fetch : Json → Except String Json) :
    Except String (List Json) :=
  match pyGetN payload "objectIDs" with
  | .error e => .error e
  | .ok ids0 =>
    let object_ids := pyOr ids0 (.arr [])
    if !truthy object_ids then .ok []
    else match object_ids with
      | .arr l =>
        let k := min 5 l.length
        match random_sample l k idxs with
        | .ok sampled => .ok (sampled.filterMap (fun oid => (fetch oid).toOption))
        | .error e => .error e
      | _ => .error "TypeError"

/-! ## Result normalizer (src/utils.py, fx_search_result) -/

/-- The all-empty display record returned for a falsy artwork
(utils.py line 105). -/
def emptyResult : List (String × Json) :=
  [("img_url", .str ""), ("title", .str ""), ("artist", .str ""), ("creation_date", .str "")]

/-- The final display record built at utils.py lines 129-134: every field
is wrapped as `value or ""`. -/
def mkResult (img_url title artist creation_date : Json) : List (String × Json) :=
  [("img_url", pyOr img_url (.str "")),
   ("title", pyOr title (.str "")),
   ("artist", pyOr artist (.str "")),
   ("creation_date", pyOr creation_date (.str ""))]

/-- CMA artist extraction (utils.py lines 112-115):
`artist = ""` then, when `creators and isinstance(creators, list) and
len(creators) > 0`, `first = creators[0];
artist = first.get("description") or first.get("display") or ""`.
The guard holds exactly when the value is a non-empty list.  Both `get`
calls share the receiver `first`, so evaluating the second one eagerly
raises in exactly the same cases as the short-circuited original. -/
def cmaArtist (creators : Json) : Except String Json :=
  match creators with
  | .arr (first :: _) => do
    let d ← pyGetN first "description"
    let disp ← pyGetN first "display"
    return pyOr d (pyOr disp (.str ""))
  | _ => .ok (.str "")

/-- CMA field extraction (utils.py lines 107-116):
`img_url = artwork.get("images", ...).get("web", ...).get("url", "")`,
`title = artwork.get("title", "")`,
`creators = artwork.get("creators") or []` feeding `cmaArtist`,
`creation_date = artwork.get("creation_date", "")`. -/
def cmaFields (artwork : Json) : Except String (Json × Json × Json × Json) := do
  let images ← pyGetD artwork "images" (.obj [])
  let web ← pyGetD images "web" (.obj [])
  let img_url ← pyGetD web "url" (.str "")
  let title ← pyGetD artwork "title" (.str "")
  let creators0 ← pyGetN artwork "creators"
  let creators := pyOr creators0 (.arr [])
  let artist ← cmaArtist creators
  let creation_date ← pyGetD artwork "creation_date" (.str "")
  return (img_url, title, artist, creation_date)

/-- MET field extraction (utils.py lines 119-122): four flat lookups
`primaryImageSmall`, `title`, `artist`, `objectDate`, each defaulting
to the empty string. -/
def metFields (artwork : Json) : Except String (Json × Json × Json × Json) := do
  let img_url ← pyGetD artwork "primaryImageSmall" (.str "")
  let title ← pyGetD artwork "title" (.str "")
  let artist ← pyGetD artwork "artist" (.str "")
  let creation_date ← pyGetD artwork "objectDate" (.str "")
  return (img_url, title, artist, creation_date)

/-- Embedding of `fx_search_result` (utils.py lines 98-134): falsy
artwork short-circuits to the all-empty record; otherwise the label
selects the CMA, MET or unknown-provider field extraction and the four
fields are wrapped by `mkResult`. -/
def fx_search_result (api_label : String) (artwork : Json) : Except String (List (String × Json)) :=
  if !truthy artwork then .ok emptyResult
  else if api_label = CMA_LABEL then
    match cmaFields artwork with
    | .ok (i, t, a, c) => .ok (mkResult i t a c)
    | .error e => .error e
  else if api_label = MET_LABEL then
    match metFields artwork with
    | .ok (i, t, a, c) => .ok (mkResult i t a c)
    | .error e => .error e
  else .ok (mkResult (.str "") (.str "") (.str "") (.str ""))

/-! ## Chat streaming adapter (src/chat.py)

Both entry points resolve the API key from the environment, then use the
new-SDK client when available, else the legacy module, else a fixed
message.  The environment is modelled as a lookup function, SDK
availability as two booleans, and the streaming create call as a
transport oracle mapping the issued request to either an exception at
call time (`.error`) or a list of stream events followed by an optional
exception raised by the iteration after those events.  A generator is
modelled by the list of fragments its full consumption yields. -/

/-- One chat message: a role/content pair. -/
structure ChatMessage where
  role : String
  content : String
deriving DecidableEq

/-- The request issued to the chat-completions endpoint. -/
structure ChatCall where
  model : String
  messages : List ChatMessage
  stream : Bool
deriving DecidableEq

/-- The create call made by both adapters:
`model="gpt-4o-mini", messages=..., stream=True`. -/
def mkChatCall (messages : List ChatMessage) : ChatCall :=
  { model := "gpt-4o-mini", messages := messages, stream := true }

/-- Outcome oracle for one streaming create call. -/
def ChatTransport : Type :=
  ChatCall → Except String (List Json × Option String)

/-- `get_system_prompt` (chat.py lines 33-38). -/
def get_system_prompt : String :=
  "You are ArtRogue, an art museum chatbot inspired by Waldemar Januszczak. " ++
  "You respond to questions about artworks, artists, and museum collections with historical insight and cultural comparisons. " ++
  "Avoid a dry academic tone - be bold and conversational. If possible, include an unexpected detail or interpretation."

/-- The fixed no-credential fragment (chat.py lines 48 and 128). -/
def no_key_msg : String :=
  "(No OpenAI API key set in OPENAI_API_KEY environment variable)"

/-- The fixed no-SDK fragment (chat.py lines 121 and 189). -/
def no_sdk_msg : String :=
  "(OpenAI SDK not installed)"

/-- The new-client streaming-error fragment, the f-string at chat.py
lines 94 and 165; written as the concatenation of its literal pieces. -/
def err_new (e : String) : String :=
  "(Error streaming from OpenAI" ++ (" (new client): " ++ (e ++ ")"))

/-- The legacy streaming-error fragment, the f-string at chat.py
lines 117 and 186. -/
def err_legacy (e : String) : String :=
  "(Error streaming from OpenAI" ++ (" (legacy): " ++ (e ++ ")"))

/-- Python truthiness of an optional string (None or a str). -/
def truthyOptStr : Option String → Bool
  | none => false
  | some s => !s.isEmpty

/-- Python `a or b` on optional strings. -/
def pyOrStr (a b : Option String) : Option String :=
  if truthyOptStr a then a else b

/-- Key resolution at chat.py lines 46 and 126:
`os.environ.get("OPENAI_API_KEY") or os.environ.get("OPENAI_KEY")`. -/
def resolved_key (env : String → Option String) : Option String :=
  pyOrStr (env "OPENAI_API_KEY") (env "OPENAI_KEY")

/-- Python `x[0]` on a JSON value. -/
def pyIndex0 : Json → Except String Json
  | .arr (x :: _) => .ok x
  | .arr [] => .error "IndexError"
  | .str ⟨c :: _⟩ => .ok (.str ⟨[c]⟩)
  | .str ⟨[]⟩ => .error "IndexError"
  | .obj _ => .error "KeyError"
  | _ => .error "TypeError"

/-- Incremental-text extraction for one new-client event (chat.py lines
64-91).  `event.get("choices")` is wrapped in try/except falling back to
`getattr(event, "choices", None)`, so a non-dict event contributes None;
`choices[0]` can raise (caught only by the outer handler); `delta` tries
the `delta` then `message` keys then the choice itself (the getattr arm
yields the choice for non-dict values); `text` tries `content` then
`text` and is None for a non-dict delta; a falsy text yields nothing. -/
def extract_text_new (event : Json) : Except String (Option Json) :=
  let choices : Json :=
    match event with
    | .obj fs => (dictGet fs "choices").getD .null
    | _ => .null
  if !truthy choices then .ok none
  else do
    let first ← pyIndex0 choices
    let delta : Json :=
      match first with
      | .obj fs => pyOr ((dictGet fs "delta").getD .null)
          (pyOr ((dictGet fs "message").getD .null) first)
      | _ => first
    let text : Json :=
      match delta with
      | .obj fs => pyOr ((dictGet fs "content").getD .null) ((dictGet fs "text").getD .null)
      | _ => .null
    if truthy text then .ok (some text) else .ok none

/-- Incremental-text extraction for one legacy chunk (chat.py lines
108-115): `choices = chunk.get("choices") or []` (raising on a non-dict
chunk), `delta = choices[0].get("delta") or ` an empty dict,
`text = delta.get("content") or choices[0].get("text")`.  Both `get`
calls on `choices[0]` share the receiver, so eager evaluation of the
second raises in the same cases as the original. -/
def extract_text_legacy (chunk : Json) : Except String (Option Json) :=
  match chunk with
  | .obj fs =>
    let choices := pyOr ((dictGet fs "choices").getD .null) (.arr [])
    if !truthy choices then .ok none
    else do
      let first ← pyIndex0 choices
      let d0 ← pyGetN first "delta"
      let delta := pyOr d0 (.obj [])
      let c0 ← pyGetN delta "content"
      let t0 ← pyGetN first "text"
      let text := pyOr c0 t0
      if truthy text then .ok (some text) else .ok none
  | _ => .error "AttributeError"

/-- Consume a list of events with an extraction function: the fragments
yielded, and the exception aborting the loop if one event raises. -/
def process_events (extract : Json → Except String (Option Json)) :
    List Json → List Json × Option String
  | [] => ([], none)
  | e :: rest =>
    match extract e with
    | .error err => ([], some err)
    | .ok none => process_events extract rest
    | .ok (some t) =>
      let p := process_events extract rest
      (t :: p.1, p.2)

/-- The new-client try block shared by both entry points (chat.py lines
55-95 and 134-166): issue the create call; a raise at call time is
caught and yields one error fragment; otherwise events are consumed,
an extraction raise or a raise by the stream iteration after the
consumed events is caught and appends one error fragment. -/
def run_new_stream (transport : ChatTransport) (messages : List ChatMessage) : List Json :=
  match transport (mkChatCall messages) with
  | .error e => [.str (err_new e)]
  | .ok (events, tail_err) =>
    let p := process_events extract_text_new events
    match p.2 with
    | some e => p.1 ++ [.str (err_new e)]
    | none =>
      match tail_err with
      | some e => p.1 ++ [.str (err_new e)]
      | none => p.1

/-- The legacy try block shared by both entry points (chat.py lines
98-118 and 169-187). -/
def run_legacy_stream (transport : ChatTransport) (messages : List ChatMessage) : List Json :=
  match transport (mkChatCall messages) with
  | .error e => [.str (err_legacy e)]
  | .ok (events, tail_err) =>
    let p := process_events extract_text_legacy events
    match p.2 with
    | some e => p.1 ++ [.str (err_legacy e)]
    | none =>
      match tail_err with
      | some e => p.1 ++ [.str (err_legacy e)]
      | none => p.1

/-- The message list built by `stream_completion` (chat.py lines 59-60
and 103-104): a system message with the persona prompt and a user
message with the given prompt. -/
def completion_messages (prompt : String) : List ChatMessage :=
  [{ role := "system", content := get_system_prompt },
   { role := "user", content := prompt }]

/-- Embedding of `stream_messages` (chat.py lines 124-189): key check,
then the new client when importable, else the legacy module, else the
fixed no-SDK fragment.  The caller-supplied message list is passed to
the endpoint unchanged.  The `os.environ.setdefault` call writes back
the already-resolved key and is behaviourally inert here. -/
def stream_messages (env : String → Option String) (hasNewClient hasLegacy : Bool)
    (tNew tLegacy : ChatTransport) (messages : List ChatMessage) : List Json :=
  if !truthyOptStr (resolved_key env) then [.str no_key_msg]
  else if hasNewClient then run_new_stream tNew messages
  else if hasLegacy then run_legacy_stream tLegacy messages
  else [.str no_sdk_msg]

/-- Embedding of `stream_completion` (chat.py lines 41-121): identical
branch structure, with the fixed [system, user] pair built from the
prompt.  The Python bodies of the two entry points are line-for-line
identical except for the message list, so they share `run_new_stream`
and `run_legacy_stream` here. -/
def stream_completion (env : String → Option String) (hasNewClient hasLegacy : Bool)
    (tNew tLegacy : ChatTransport) (prompt : String) : List Json :=
  if !truthyOptStr (resolved_key env) then [.str no_key_msg]
  else if hasNewClient then run_new_stream tNew (completion_messages prompt)
  else if hasLegacy then run_legacy_stream tLegacy (completion_messages prompt)
  else [.str no_sdk_msg]

/-! ## Helper lemmas -/

theorem ebind_ok {α β : Type} (x : α) (f : α → Except String β) :
    (Except.ok x >>= f) = f x := rfl

theorem ebind_error {α β : Type} (e : String) (f : α → Except String β) :
    ((Except.error e : Except String α) >>= f) = Except.error e := rfl

theorem truthy_ne_null {j : Json} (h : truthy j = true) : j ≠ Json.null := by
  intro hj; subst hj; simp [truthy] at h

theorem pyOr_of_truthy {a : Json} (b : Json) (h : truthy a = true) : pyOr a b = a := by
  simp [pyOr, h]

theorem pyOr_of_falsy {a : Json} (b : Json) (h : truthy a = false) : pyOr a b = b := by
  simp [pyOr, h]

theorem pyOr_emptyStr_cases (x : Json) :
    pyOr x (.str "") = .str "" ∨ truthy (pyOr x (.str "")) = true := by
  by_cases h : truthy x = true
  · right; rw [pyOr_of_truthy _ h]; exact h
  · left; exact pyOr_of_falsy _ (by simpa using h)

theorem pyOr_ne_null (x : Json) : pyOr x (.str "") ≠ Json.null := by
  rcases pyOr_emptyStr_cases x with h | h
  · rw [h]; intro hc; cases hc
  · exact truthy_ne_null h

theorem pyOr_pyOr_emptyStr (x y : Json) :
    pyOr (pyOr x (pyOr y (.str ""))) (.str "") = pyOr x (pyOr y (.str "")) := by
  by_cases hx : truthy x = true
  · rw [pyOr_of_truthy _ hx, pyOr_of_truthy _ hx]
  · replace hx : truthy x = false := by simpa using hx
    rw [pyOr_of_falsy _ hx]
    by_cases hy : truthy y = true
    · rw [pyOr_of_truthy _ hy, pyOr_of_truthy _ hy]
    · replace hy : truthy y = false := by simpa using hy
      rw [pyOr_of_falsy _ hy]
      rfl

theorem mkResult_keys (i t a c : Json) :
    (mkResult i t a c).map Prod.fst = ["img_url", "title", "artist", "creation_date"] := rfl

theorem mkResult_values (i t a c : Json) :
    ∀ p ∈ mkResult i t a c, p.2 ≠ Json.null ∧ (p.2 = .str "" ∨ truthy p.2 = true) := by
  intro p hp
  simp only [mkResult, List.mem_cons, List.not_mem_nil, or_false] at hp
  rcases hp with h | h | h | h <;> subst h <;>
    exact ⟨pyOr_ne_null _, pyOr_emptyStr_cases _⟩

theorem emptyResult_values :
    ∀ p ∈ emptyResult, p.2 ≠ Json.null ∧ (p.2 = .str "" ∨ truthy p.2 = true) := by
  intro p hp
  simp only [emptyResult, List.mem_cons, List.not_mem_nil, or_false] at hp
  rcases hp with h | h | h | h <;> subst h <;> exact ⟨(by intro hc; cases hc), Or.inl rfl⟩

theorem filterMap_getElem?_length {α : Type} (l : List α) (idxs : List Nat)
    (h : ∀ i ∈ idxs, i < l.length) :
    (idxs.filterMap (fun i => l[i]?)).length = idxs.length := by
  induction idxs with
  | nil => rfl
  | cons i is ih =>
    have hi : i < l.length := h i (List.mem_cons_self i is)
    have ha : l[i]? = some l[i] := List.getElem?_eq_getElem hi
    simp [List.filterMap_cons, ha, ih (fun j hj => h j (List.mem_cons_of_mem i hj))]

theorem mem_of_mem_filterMap_getElem? {α : Type} {l : List α} {idxs : List Nat} {x : α}
    (h : x ∈ idxs.filterMap (fun i => l[i]?)) : x ∈ l := by
  rw [List.mem_filterMap] at h
  obtain ⟨i, _, hget⟩ := h
  obtain ⟨hlt, hx⟩ := List.getElem?_eq_some.mp hget
  exact hx ▸ List.getElem_mem hlt

theorem nodup_filterMap_getElem? {α : Type} {l : List α} {idxs : List Nat}
    (hl : l.Nodup) (hi : idxs.Nodup) : (idxs.filterMap (fun i => l[i]?)).Nodup := by
  apply List.Nodup.filterMap _ hi
  intro i j x hix hjx
  have hilt : i < l.length := (List.getElem?_eq_some.mp hix).1
  exact List.getElem?_inj hilt hl (hix.trans hjx.symm)

theorem range_filterMap_getElem? {α : Type} (l : List α) :
    (List.range l.length).filterMap (fun i => l[i]?) = l := by
  induction l using List.reverseRecOn with
  | nil => rfl
  | append_singleton l a ih =>
    rw [List.length_append, List.length_singleton, List.range_succ, List.filterMap_append]
    have h₁ : (List.range l.length).filterMap (fun i => (l ++ [a])[i]?) =
        (List.range l.length).filterMap (fun i => l[i]?) := by
      apply List.filterMap_congr
      intro i hi
      rw [List.mem_range] at hi
      exact List.getElem?_append_left hi
    have h₂ : ([l.length].filterMap (fun i => (l ++ [a])[i]?)) = [a] := by
      simp [List.filterMap_cons, List.getElem?_concat_length]
    rw [h₁, ih, h₂]

theorem perm_range_of_validDraw {idxs : List Nat} {n : Nat}
    (hnd : idxs.Nodup) (hlen : idxs.length = n) (hb : ∀ i ∈ idxs, i < n) :
    idxs.Perm (List.range n) := by
  have hsub : idxs ⊆ List.range n := fun i hi => List.mem_range.mpr (hb i hi)
  exact (hnd.subperm hsub).perm_of_length_le (by rw [List.length_range, hlen])

theorem filterMap_getElem?_perm {α : Type} {l : List α} {idxs : List Nat}
    (hnd : idxs.Nodup) (hlen : idxs.length = l.length) (hb : ∀ i ∈ idxs, i < l.length) :
    (idxs.filterMap (fun i => l[i]?)).Perm l := by
  have hperm : idxs.Perm (List.range l.length) := perm_range_of_validDraw hnd hlen hb
  have := hperm.filterMap (fun i => l[i]?)
  rwa [range_filterMap_getElem? l] at this

theorem epure_ok {α : Type} (x : α) : (pure x : Except String α) = .ok x := rfl

/-- Whenever cmaFields succeeds, its artist component is exactly the
cmaArtist value of `artwork.get("creators") or []`. -/
theorem cmaFields_artist {artwork i t a c : Json}
    (h : cmaFields artwork = .ok (i, t, a, c)) :
    ∃ cr0, pyGetN artwork "creators" = .ok cr0 ∧ cmaArtist (pyOr cr0 (.arr [])) = .ok a := by
  unfold cmaFields at h
  cases h1 : pyGetD artwork "images" (.obj []) with
  | error e => simp only [h1, ebind_error] at h; exact Except.noConfusion h
  | ok v1 =>
  simp only [h1, ebind_ok] at h
  cases h2 : pyGetD v1 "web" (.obj []) with
  | error e => simp only [h2, ebind_error] at h; exact Except.noConfusion h
  | ok v2 =>
  simp only [h2, ebind_ok] at h
  cases h3 : pyGetD v2 "url" (.str "") with
  | error e => simp only [h3, ebind_error] at h; exact Except.noConfusion h
  | ok vurl =>
  simp only [h3, ebind_ok] at h
  cases h4 : pyGetD artwork "title" (.str "") with
  | error e => simp only [h4, ebind_error] at h; exact Except.noConfusion h
  | ok vtitle =>
  simp only [h4, ebind_ok] at h
  cases h5 : pyGetN artwork "creators" with
  | error e => simp only [h5, ebind_error] at h; exact Except.noConfusion h
  | ok cr0 =>
  simp only [h5, ebind_ok] at h
  cases h6 : cmaArtist (pyOr cr0 (.arr [])) with
  | error e => simp only [h6, ebind_error] at h; exact Except.noConfusion h
  | ok va =>
  simp only [h6, ebind_ok] at h
  cases h7 : pyGetD artwork "creation_date" (.str "") with
  | error e => simp only [h7, ebind_error] at h; exact Except.noConfusion h
  | ok vc =>
  simp only [h7, ebind_ok, epure_ok, Except.ok.injEq, Prod.mk.injEq] at h
  obtain ⟨-, -, ha, -⟩ := h
  exact ⟨cr0, rfl, ha ▸ h6⟩

/-- Claim C9: for every provider label, known or unknown, fx_search_result
applied to an empty or absent raw artwork returns exactly the record
mapping img_url, title, artist and creation_date to the empty string. -/
theorem C9_empty_artwork (api_label : String) :
    fx_search_result api_label (.obj []) = .ok emptyResult ∧
    fx_search_result api_label .null = .ok emptyResult :=
  ⟨rfl, rfl⟩

/-- Claim C1 fails as stated: a truthy non-string source field passes
through normalization unchanged, so the result is not always
string-valued.  Here a CMA artwork whose title is the integer 5
normalizes to a record whose title value is that integer, which is not a
string. -/
theorem C1_counterexample :
    fx_search_result CMA_LABEL (.obj [("title", .num 5)]) =
      .ok [("img_url", .str ""), ("title", .num 5), ("artist", .str ""),
           ("creation_date", .str "")] ∧
    ∀ s, Json.num 5 ≠ Json.str s :=
  ⟨rfl, fun _ h => Json.noConfusion h⟩

/-- Claim C1 (amended): whenever fx_search_result returns a record, the
record has exactly the four keys img_url, title, artist and
creation_date, no value is None, and every value is either the empty
string or a truthy extracted source value — hence a string whenever the
consulted source fields hold strings or are absent, though a truthy
non-string source value passes through unchanged. -/
theorem C1_result_shape (api_label : String) (artwork : Json) (r : List (String × Json))
    (h : fx_search_result api_label artwork = .ok r) :
    r.map Prod.fst = ["img_url", "title", "artist", "creation_date"] ∧
    ∀ p ∈ r, p.2 ≠ Json.null ∧ (p.2 = .str "" ∨ truthy p.2 = true) := by
  unfold fx_search_result at h
  split at h
  · injection h with h
    subst h
    exact ⟨rfl, emptyResult_values⟩
  · split at h
    · split at h
      · rename_i i t a c heq
        injection h with h
        subst h
        exact ⟨mkResult_keys i t a c, mkResult_values i t a c⟩
      · exact Except.noConfusion h
    · split at h
      · split at h
        · rename_i i t a c heq
          injection h with h
          subst h
          exact ⟨mkResult_keys i t a c, mkResult_values i t a c⟩
        · exact Except.noConfusion h
      · injection h with h
        subst h
        exact ⟨mkResult_keys _ _ _ _, mkResult_values _ _ _ _⟩

/-- Witness for C1_result_shape at a concrete unknown provider label and
a concrete truthy artwork. -/
theorem C1_result_shape_witness :
    (mkResult (.str "") (.str "") (.str "") (.str "")).map Prod.fst
      = ["img_url", "title", "artist", "creation_date"] ∧
    ∀ p ∈ mkResult (.str "") (.str "") (.str "") (.str ""),
      p.2 ≠ Json.null ∧ (p.2 = .str "" ∨ truthy p.2 = true) :=
  C1_result_shape "Provider X" (.obj [("x", .num 1)]) _ rfl

/-- Claim C2 is right and the code wrong: normalization is supposed never
to raise, yet for Provider A an artwork whose images field is explicitly
null makes fx_search_result raise AttributeError (None has no attribute
get), and so does a null entry inside the creators list. -/
theorem C2_null_field_raises :
    fx_search_result CMA_LABEL (.obj [("images", Json.null)]) = .error "AttributeError" ∧
    fx_search_result CMA_LABEL (.obj [("creators", .arr [Json.null])]) = .error "AttributeError" :=
  ⟨rfl, rfl⟩

/-- Claim C8: for Provider A the normalized artist comes from the first
entry of the creators list when that list is present and non-empty,
preferring its description sub-field and falling back to its display
sub-field; it is the empty string when creators is missing, empty or
falsy; and creators with a single description Vincent van Gogh yields
artist Vincent van Gogh. -/
theorem C8_cma_artist :
    (∀ (fs : List (String × Json)) (c : List (String × Json)) (rest : List Json)
       (r : List (String × Json)),
       dictGet fs "creators" = some (.arr (.obj c :: rest)) →
       fx_search_result CMA_LABEL (.obj fs) = .ok r →
       dictGet r "artist" = some (pyOr ((dictGet c "description").getD .null)
         (pyOr ((dictGet c "display").getD .null) (.str "")))) ∧
    (∀ (fs : List (String × Json)) (r : List (String × Json)),
       (dictGet fs "creators" = none ∨ dictGet fs "creators" = some (.arr []) ∨
         (∃ v, dictGet fs "creators" = some v ∧ truthy v = false)) →
       fx_search_result CMA_LABEL (.obj fs) = .ok r →
       dictGet r "artist" = some (.str "")) ∧
    fx_search_result CMA_LABEL
        (.obj [("creators", .arr [.obj [("description", .str "Vincent van Gogh")]])]) =
      .ok [("img_url", .str ""), ("title", .str ""), ("artist", .str "Vincent van Gogh"),
           ("creation_date", .str "")] := by
  refine ⟨?_, ?_, rfl⟩
  · intro fs c rest r hcr h
    have hne : fs ≠ [] := by
      intro hfs
      subst hfs
      simp [dictGet] at hcr
    have ht : truthy (.obj fs) = true := by
      simp only [truthy, Bool.not_eq_true', List.isEmpty_eq_false]
      exact hne
    rw [fx_search_result, ht] at h
    simp only [Bool.not_true, Bool.false_eq_true, if_false, if_pos rfl] at h
    cases hc : cmaFields (.obj fs) with
    | error e => rw [hc] at h; exact Except.noConfusion h
    | ok q =>
      obtain ⟨i0, t0, a0, c0⟩ := q
      rw [hc] at h
      have h' : Except.ok (ε := String) (mkResult i0 t0 a0 c0) = .ok r := h
      injection h' with h'
      subst h'
      obtain ⟨cr0, hcr0, hart⟩ := cmaFields_artist hc
      rw [pyGetN, pyGetD] at hcr0
      rw [hcr] at hcr0
      simp only [Option.getD_some, Except.ok.injEq] at hcr0
      subst hcr0
      rw [pyOr_of_truthy _ (by simp [truthy])] at hart
      simp only [cmaArtist, pyGetN, pyGetD, ebind_ok, epure_ok, Except.ok.injEq] at hart
      have hd : dictGet (mkResult i0 t0 a0 c0) "artist" = some (pyOr a0 (.str "")) := rfl
      rw [hd, ← hart, pyOr_pyOr_emptyStr]
  · intro fs r hcases h
    cases htr : truthy (.obj fs) with
    | false =>
      rw [fx_search_result, htr] at h
      simp only [Bool.not_false, if_true] at h
      injection h with h
      subst h
      rfl
    | true =>
      rw [fx_search_result, htr] at h
      simp only [Bool.not_true, Bool.false_eq_true, if_false, if_pos rfl] at h
      cases hc : cmaFields (.obj fs) with
      | error e => rw [hc] at h; exact Except.noConfusion h
      | ok q =>
        obtain ⟨i0, t0, a0, c0⟩ := q
        rw [hc] at h
        have h' : Except.ok (ε := String) (mkResult i0 t0 a0 c0) = .ok r := h
        injection h' with h'
        subst h'
        obtain ⟨cr0, hcr0, hart⟩ := cmaFields_artist hc
        rw [pyGetN, pyGetD] at hcr0
        have hflat : pyOr cr0 (.arr []) = .arr [] := by
          rcases hcases with hn | he | ⟨v, hv, hvf⟩
          · rw [hn] at hcr0
            simp only [Option.getD_none, Except.ok.injEq] at hcr0
            subst hcr0
            exact pyOr_of_falsy _ rfl
          · rw [he] at hcr0
            simp only [Option.getD_some, Except.ok.injEq] at hcr0
            subst hcr0
            exact pyOr_of_falsy _ rfl
          · rw [hv] at hcr0
            simp only [Option.getD_some, Except.ok.injEq] at hcr0
            subst hcr0
            exact pyOr_of_falsy _ hvf
        rw [hflat] at hart
        have ha0 : a0 = .str "" := by
          have : Except.ok (ε := String) (Json.str "") = .ok a0 := hart
          injection this with this
          exact this.symm
        subst ha0
        rfl

/-- Witness for C8_cma_artist at a concrete artwork whose creators entry
has only a display sub-field, exercising the fallback. -/
theorem C8_cma_artist_witness :
    dictGet (mkResult (.str "") (.str "") (.str "Gogh-display") (.str "")) "artist"
      = some (pyOr ((dictGet [("display", Json.str "Gogh-display")] "description").getD .null)
          (pyOr ((dictGet [("display", Json.str "Gogh-display")] "display").getD .null)
            (.str ""))) :=
  C8_cma_artist.1 [("creators", .arr [.obj [("display", .str "Gogh-display")]])]
    [("display", .str "Gogh-display")] [] _ rfl rfl

/-- Claim C10: the except-ValueError fallback in fx_search_cma is
unreachable: k = min 5 (number of records) never exceeds the population
size, so random.sample never raises ValueError; fx_search_cma coincides
everywhere with the variant whose fallback branch is removed, and for
every non-empty record list the sample of the try branch is returned. -/
theorem C10_fallback_unreachable :
    (∀ payload idxs, fx_search_cma payload idxs = fx_search_cma_noexcept payload idxs) ∧
    (∀ (l : List Json) idxs, l ≠ [] →
      random_sample l (min 5 l.length) idxs = .ok (idxs.filterMap (fun i => l[i]?))) := by
  constructor
  · intro payload idxs
    cases h1 : pyGetD payload "data" (.arr []) with
    | error e => simp only [fx_search_cma, fx_search_cma_noexcept, h1]
    | ok d =>
      cases hd : pyOr d (.arr []) with
      | arr l =>
        cases l with
        | nil => simp [fx_search_cma, fx_search_cma_noexcept, h1, hd, truthy]
        | cons a as =>
          have ht : truthy (.arr (a :: as)) = true := by simp [truthy]
          simp only [fx_search_cma, fx_search_cma_noexcept, h1, hd, ht, Bool.not_true,
            Bool.false_eq_true, if_false, random_sample,
            if_pos (Nat.min_le_right 5 (a :: as).length)]
      | null => simp only [fx_search_cma, fx_search_cma_noexcept, h1, hd]
      | bool b => simp only [fx_search_cma, fx_search_cma_noexcept, h1, hd]
      | num n => simp only [fx_search_cma, fx_search_cma_noexcept, h1, hd]
      | str s => simp only [fx_search_cma, fx_search_cma_noexcept, h1, hd]
      | obj gs => simp only [fx_search_cma, fx_search_cma_noexcept, h1, hd]
  · intro l idxs _
    simp only [random_sample, if_pos (Nat.min_le_right 5 l.length)]

/-- Witness for C10_fallback_unreachable on concrete inputs. -/
theorem C10_fallback_unreachable_witness :
    fx_search_cma (.obj []) [] = fx_search_cma_noexcept (.obj []) [] ∧
    random_sample [Json.null] (min 5 [Json.null].length) [0] =
      .ok ([0].filterMap (fun i => [Json.null][i]?)) :=
  ⟨C10_fallback_unreachable.1 (.obj []) [],
   C10_fallback_unreachable.2 [Json.null] [0] (by simp)⟩

/-- Claim C3 fails as stated for five or fewer records: random.sample is
applied even then, so the records come back in the order of the random
draw, not in their original order.  The draw that picks index 1 and then
index 0 is a legitimate random.sample outcome on a two-record response
and yields the reversed list. -/
theorem C3_counterexample :
    ValidDraw [1, 0] (min 5 2) 2 ∧
    fx_search_cma (.obj [("data", .arr [.str "a", .str "b"])]) [1, 0] =
      .ok [.str "b", .str "a"] ∧
    [Json.str "b", Json.str "a"] ≠ [Json.str "a", Json.str "b"] := by
  refine ⟨⟨by decide, by decide, by decide⟩, rfl, ?_⟩
  intro h
  injection h with h1 h2
  injection h1 with h1
  exact absurd h1 (by decide)

/-- Claim C3 (amended): for every legitimate random.sample draw, with
more than 5 records the result is exactly 5 records drawn without
replacement from the response (no duplicate positions, hence distinct
records when the records are distinct); with 5 or fewer records the
result is all of them, but in the order of the random draw rather than
the original order; and sampling never raises.  Uniformity of the draw
is a property of the RNG behind the oracle, outside this model. -/
theorem C3_sampling (fs : List (String × Json)) (l : List Json) (idxs : List Nat)
    (hdata : dictGet fs "data" = some (.arr l))
    (hdraw : ValidDraw idxs (min 5 l.length) l.length) :
    ∃ out, fx_search_cma (.obj fs) idxs = .ok out ∧
      out.length = min 5 l.length ∧
      (∀ x ∈ out, x ∈ l) ∧
      (5 < l.length → out.length = 5) ∧
      (l.length ≤ 5 → out.Perm l) ∧
      (l.Nodup → out.Nodup) := by
  obtain ⟨hnd, hlen, hb⟩ := hdraw
  refine ⟨idxs.filterMap (fun i => l[i]?), ?_, ?_, ?_, ?_, ?_, ?_⟩
  · have h0 : pyGetD (.obj fs) "data" (.arr []) = .ok (.arr l) := by
      simp [pyGetD, hdata]
    by_cases hl : l = []
    · subst hl
      have hidx : idxs = [] := List.length_eq_zero.mp (by simpa using hlen)
      subst hidx
      simp [fx_search_cma, h0, pyOr, truthy]
    · have ht : truthy (.arr l) = true := by
        simp only [truthy, Bool.not_eq_true', List.isEmpty_eq_false]
        exact hl
      simp only [fx_search_cma, h0, pyOr_of_truthy _ ht, ht, Bool.not_true,
        Bool.false_eq_true, if_false, random_sample,
        if_pos (Nat.min_le_right 5 l.length)]
  · rw [filterMap_getElem?_length l idxs hb, hlen]
  · intro x hx
    exact mem_of_mem_filterMap_getElem? hx
  · intro h5
    rw [filterMap_getElem?_length l idxs hb, hlen]
    exact Nat.min_eq_left (Nat.le_of_lt h5)
  · intro h5
    exact filterMap_getElem?_perm hnd (hlen.trans (Nat.min_eq_right h5)) hb
  · intro hln
    exact nodup_filterMap_getElem? hln hnd

/-- Witness for C3_sampling on a one-record response with the draw
picking position 0. -/
theorem C3_sampling_witness :
    ∃ out, fx_search_cma (.obj [("data", .arr [Json.null])]) [0] = .ok out ∧
      out.length = min 5 [Json.null].length ∧
      (∀ x ∈ out, x ∈ [Json.null]) ∧
      (5 < [Json.null].length → out.length = 5) ∧
      ([Json.null].length ≤ 5 → out.Perm [Json.null]) ∧
      ([Json.null].Nodup → out.Nodup) :=
  C3_sampling [("data", .arr [Json.null])] [Json.null] [0] rfl
    ⟨by decide, by decide, by decide⟩

/-- A demo detail-fetch oracle: the detail request for object id 3
raises, every other request returns a record. -/
def met_fetch_demo : Json → Except String Json
  | .num 3 => .error "HTTPError"
  | j => .ok (.obj [("objectID", j)])

/-- Claim C4: in the Provider B two-phase fetch an empty or missing
objectIDs list gives an empty result immediately; otherwise, for every
legitimate draw, at most 5 identifiers are sampled without replacement,
each sampled identifier maps to one detail fetch, every failing fetch is
silently skipped, and the call returns successfully whatever the fetch
outcomes are; in particular when exactly one of 5 sampled detail fetches
raises the result is the 4 successful artworks and no exception
escapes. -/
theorem C4_met_two_phase :
    (∀ (fs : List (String × Json)) (idxs : List Nat) (fetch : Json → Except String Json),
       (dictGet fs "objectIDs" = none ∨
         ∃ v, dictGet fs "objectIDs" = some v ∧ truthy v = false) →
       fx_search_met (.obj fs) idxs fetch = .ok []) ∧
    (∀ (fs : List (String × Json)) (l : List Json) (idxs : List Nat)
       (fetch : Json → Except String Json),
       dictGet fs "objectIDs" = some (.arr l) →
       ValidDraw idxs (min 5 l.length) l.length →
       fx_search_met (.obj fs) idxs fetch =
         .ok ((idxs.filterMap (fun i => l[i]?)).filterMap
           (fun oid => (fetch oid).toOption)) ∧
       (idxs.filterMap (fun i => l[i]?)).length = min 5 l.length ∧
       min 5 l.length ≤ 5) ∧
    fx_search_met (.obj [("objectIDs", .arr [.num 1, .num 2, .num 3, .num 4, .num 5])])
        [0, 1, 2, 3, 4] met_fetch_demo =
      .ok [.obj [("objectID", .num 1)], .obj [("objectID", .num 2)],
           .obj [("objectID", .num 4)], .obj [("objectID", .num 5)]] := by
  refine ⟨?_, ?_, rfl⟩
  · intro fs idxs fetch hcases
    rcases hcases with hn | ⟨v, hv, hvf⟩
    · have h0 : pyGetN (.obj fs) "objectIDs" = .ok .null := by
        simp [pyGetN, pyGetD, hn]
      simp [fx_search_met, h0, pyOr, truthy]
    · have h0 : pyGetN (.obj fs) "objectIDs" = .ok v := by
        simp [pyGetN, pyGetD, hv]
      simp [fx_search_met, h0, pyOr_of_falsy _ hvf, truthy]
  · intro fs l idxs fetch hids hdraw
    obtain ⟨hnd, hlen, hb⟩ := hdraw
    have h0 : pyGetN (.obj fs) "objectIDs" = .ok (.arr l) := by
      simp [pyGetN, pyGetD, hids]
    refine ⟨?_, ?_, Nat.min_le_left 5 l.length⟩
    · by_cases hl : l = []
      · subst hl
        have hidx : idxs = [] := List.length_eq_zero.mp (by simpa using hlen)
        subst hidx
        simp [fx_search_met, h0, pyOr, truthy]
      · have ht : truthy (.arr l) = true := by
          simp only [truthy, Bool.not_eq_true', List.isEmpty_eq_false]
          exact hl
        simp only [fx_search_met, h0, pyOr_of_truthy _ ht, ht, Bool.not_true,
          Bool.false_eq_true, if_false, random_sample,
          if_pos (Nat.min_le_right 5 l.length)]
    · rw [filterMap_getElem?_length l idxs hb, hlen]

/-- Witness for C4_met_two_phase on a one-identifier response whose
single detail fetch succeeds. -/
theorem C4_met_two_phase_witness :
    fx_search_met (.obj [("objectIDs", .arr [.num 7])]) [0]
        (fun _ => (.ok .null : Except String Json)) =
      .ok (([0].filterMap (fun i => [Json.num 7][i]?)).filterMap
        (fun oid => ((fun _ => (Except.ok Json.null : Except String Json)) oid).toOption)) ∧
    ([0].filterMap (fun i => [Json.num 7][i]?)).length = min 5 [Json.num 7].length ∧
    min 5 [Json.num 7].length ≤ 5 :=
  C4_met_two_phase.2.1 [("objectIDs", .arr [.num 7])] [.num 7] [0]
    (fun _ => (.ok .null : Except String Json)) rfl ⟨by decide, by decide, by decide⟩

/-- Claim C5: when no API key is resolvable from the environment under
either accepted variable name (unset, or set to the falsy empty string),
both entry points yield exactly one fragment, the fixed no-credential
message, and the sequence then ends; no exception is raised — both
adapters are total functions. -/
theorem C5_no_credential (env : String → Option String) (hasNewClient hasLegacy : Bool)
    (tNew tLegacy : ChatTransport) (prompt : String) (messages : List ChatMessage)
    (hA : env "OPENAI_API_KEY" = none ∨ env "OPENAI_API_KEY" = some "")
    (hB : env "OPENAI_KEY" = none ∨ env "OPENAI_KEY" = some "") :
    stream_completion env hasNewClient hasLegacy tNew tLegacy prompt = [.str no_key_msg] ∧
    stream_messages env hasNewClient hasLegacy tNew tLegacy messages = [.str no_key_msg] := by
  have hres : truthyOptStr (resolved_key env) = false := by
    unfold resolved_key pyOrStr
    rcases hA with hA | hA <;> rcases hB with hB | hB <;>
      simp only [hA, hB, truthyOptStr] <;> decide
  exact ⟨by simp [stream_completion, hres], by simp [stream_messages, hres]⟩

/-- Witness for C5_no_credential with an empty environment. -/
theorem C5_no_credential_witness :
    stream_completion (fun _ => none) true true (fun _ => .ok ([], none))
        (fun _ => .ok ([], none)) "hello" = [.str no_key_msg] ∧
    stream_messages (fun _ => none) true true (fun _ => .ok ([], none))
        (fun _ => .ok ([], none)) [] = [.str no_key_msg] :=
  C5_no_credential (fun _ => none) true true (fun _ => .ok ([], none))
    (fun _ => .ok ([], none)) "hello" [] (Or.inl rfl) (Or.inl rfl)

/-- Claim C6: with a credential present, if the streaming create call
itself raises, each adapter on each SDK path emits exactly one fragment,
the fixed error text carrying the raised message and prefixed to
identify it as a streaming error, then ends the sequence; no exception
escapes the adapter and no retry occurs. -/
theorem C6_stream_error (env : String → Option String) (hasLegacy : Bool)
    (tNew tLegacy : ChatTransport) (prompt : String) (messages : List ChatMessage)
    (e : String) (hkey : truthyOptStr (resolved_key env) = true) :
    (tNew (mkChatCall (completion_messages prompt)) = .error e →
      stream_completion env true hasLegacy tNew tLegacy prompt = [.str (err_new e)]) ∧
    (tNew (mkChatCall messages) = .error e →
      stream_messages env true hasLegacy tNew tLegacy messages = [.str (err_new e)]) ∧
    (tLegacy (mkChatCall (completion_messages prompt)) = .error e →
      stream_completion env false true tNew tLegacy prompt = [.str (err_legacy e)]) ∧
    (tLegacy (mkChatCall messages) = .error e →
      stream_messages env false true tNew tLegacy messages = [.str (err_legacy e)]) ∧
    (∃ rest, err_new e = "(Error streaming from OpenAI" ++ rest) ∧
    (∃ rest, err_legacy e = "(Error streaming from OpenAI" ++ rest) ∧
    err_new "E" = "(Error streaming from OpenAI (new client): E)" ∧
    err_legacy "E" = "(Error streaming from OpenAI (legacy): E)" := by
  refine ⟨?_, ?_, ?_, ?_, ⟨_, rfl⟩, ⟨_, rfl⟩, rfl, rfl⟩
  · intro ht
    simp [stream_completion, hkey, run_new_stream, ht]
  · intro ht
    simp [stream_messages, hkey, run_new_stream, ht]
  · intro ht
    simp [stream_completion, hkey, run_legacy_stream, ht]
  · intro ht
    simp [stream_messages, hkey, run_legacy_stream, ht]

/-- Witness for C6_stream_error with a concrete credential and a
transport whose create call raises. -/
theorem C6_stream_error_witness :
    stream_completion (fun _ => some "k") true true
        (fun _ => .error "boom") (fun _ => .error "boom") "q" = [.str (err_new "boom")] ∧
    stream_messages (fun _ => some "k") false true
        (fun _ => .error "boom") (fun _ => .error "boom") [] = [.str (err_legacy "boom")] :=
  ⟨(C6_stream_error (fun _ => some "k") true (fun _ => .error "boom")
      (fun _ => .error "boom") "q" [] "boom" rfl).1 rfl,
   (C6_stream_error (fun _ => some "k") true (fun _ => .error "boom")
      (fun _ => .error "boom") "q" [] "boom" rfl).2.2.2.1 rfl⟩

/-- Claim C7: stream_completion on a prompt produces exactly the
fragment sequence of stream_messages on the [system, user] pair built
with the fixed persona prompt, for the same environment, SDK
availability and transports; and stream_messages passes its
caller-supplied message list to the endpoint verbatim, injecting no
system prompt: its output depends on each transport only through the
response to the single call carrying exactly that message list. -/
theorem C7_entry_points :
    (∀ (env : String → Option String) (hasNewClient hasLegacy : Bool)
       (tNew tLegacy : ChatTransport) (prompt : String),
       stream_completion env hasNewClient hasLegacy tNew tLegacy prompt =
         stream_messages env hasNewClient hasLegacy tNew tLegacy
           (completion_messages prompt)) ∧
    (∀ (env : String → Option String) (hasNewClient hasLegacy : Bool)
       (tNew tNew2 tLegacy tLegacy2 : ChatTransport) (messages : List ChatMessage),
       tNew (mkChatCall messages) = tNew2 (mkChatCall messages) →
       tLegacy (mkChatCall messages) = tLegacy2 (mkChatCall messages) →
       stream_messages env hasNewClient hasLegacy tNew tLegacy messages =
         stream_messages env hasNewClient hasLegacy tNew2 tLegacy2 messages) := by
  constructor
  · intro env hN hL tN tL p
    rfl
  · intro env hN hL tN tN2 tL tL2 msgs h1 h2
    unfold stream_messages
    cases hk : truthyOptStr (resolved_key env) with
    | false => rfl
    | true =>
      cases hN with
      | true =>
        show run_new_stream tN msgs = run_new_stream tN2 msgs
        unfold run_new_stream
        rw [h1]
      | false =>
        cases hL with
        | true =>
          show run_legacy_stream tL msgs = run_legacy_stream tL2 msgs
          unfold run_legacy_stream
          rw [h2]
        | false => rfl

/-- Witness for C7_entry_points: two transports agreeing on the one call
that stream_messages makes give identical output. -/
theorem C7_entry_points_witness :
    stream_messages (fun _ => some "k") true false
        (fun _ => .ok ([], none)) (fun _ => .ok ([], none)) [] =
      stream_messages (fun _ => some "k") true false
        (fun c => if c.messages = [] then .ok ([], none) else .error "other")
        (fun _ => .ok ([], none)) [] :=
  C7_entry_points.2 (fun _ => some "k") true false (fun _ => .ok ([], none))
    (fun c => if c.messages = [] then .ok ([], none) else .error "other")
    (fun _ => .ok ([], none)) (fun _ => .ok ([], none)) [] rfl rfl

end ArtRogue
